/-
  Verification development for the enhanced-sampling workshop repository
  (notebooks `unbinding.ipynb` and the finite-temperature string-method
  notebook).  The notebooks import their numerical kernels from the
  repository modules `main.py`, `aux.py` and `src/wham.py`; those modules
  are not part of the sources given here, so they are modelled from the
  specification and from the behaviour recorded in the notebooks
  (markdown descriptions, argument tables, and captured cell outputs).
  All arithmetic is over the rationals.
-/
import Mathlib

/-! ## Basic numeric helpers -/

/-- Dot product of two rational vectors (coordinate lists). -/
def dotQ (a b : List ℚ) : ℚ := (List.zipWith (fun x y => x * y) a b).sum

/-- Largest absolute componentwise difference between two lists,
starting from 0 (so it is 0 on empty lists). -/
def maxAbsDiff (a b : List ℚ) : ℚ :=
  (List.zipWith (fun x y => |x - y|) a b).foldl max 0

/-- Minimum of a list of rationals (head-seeded fold). -/
def listMin (l : List ℚ) : ℚ := l.foldl min (l.headD 0)

/-- Maximum of a list of rationals (head-seeded fold). -/
def listMax (l : List ℚ) : ℚ := l.foldl max (l.headD 0)

/-- Boltzmann constant in kcal/(mol K), the unit system used by the
workshop notebooks. -/
def kB : ℚ := 0.0019872041

/-! ## Model of IEEE-style extended values produced by `np.log`

`np.log` on a zero probability returns `-inf` (with a `RuntimeWarning`,
as captured in the notebook's recorded stderr) instead of raising an
error; multiplying by a negative prefactor gives `+inf`.  We model the
float results of the profile computation with an extended value type. -/

/-- Extended rational value: finite, plus the two IEEE infinities. -/
inductive NFloat where
  | neginf : NFloat
  | fin : ℚ → NFloat
  | posinf : NFloat
deriving DecidableEq, Repr

/-- Modelled from the spec: computable surrogate for the natural
logarithm on positive rationals (the exact natural log of a rational is
irrational, and no claim depends on its finite values); it preserves
log 1 = 0 and strict monotonicity. -/
def logApprox (p : ℚ) : ℚ := p - 1

/-- Model of `np.log` on a binned probability: a nonpositive argument
gives the IEEE `-inf` (numpy emits a `RuntimeWarning` and continues),
a positive argument gives a finite value. -/
def nplog (p : ℚ) : NFloat :=
  if p ≤ 0 then NFloat.neginf else NFloat.fin (logApprox p)

/-- Multiply an extended value by `-c` for a positive prefactor `c`
(the `-KbT *` in the free-energy profile formula). -/
def NFloat.negScale (c : ℚ) : NFloat → NFloat
  | NFloat.neginf => NFloat.posinf
  | NFloat.fin q => NFloat.fin (-(c * q))
  | NFloat.posinf => NFloat.neginf

/-! ## WHAM estimator

Modelled from the spec: the class `WHAM` of `src/wham.py` is not among
the given sources (the notebooks only import and call it); the spec
describes it as an "iterative self-consistent reweighting of biased
histograms across 1D/2D projections" driven by the "well-known
self-consistent WHAM equations".  The Boltzmann factor exp(-u/kT) of a
harmonic window bias is replaced by the computable positive rational
kernel 1/(1 + u/kT), which preserves positivity and monotone decay in
the bias energy; the self-consistent structure of the equations is kept
exactly. -/

/-- State of the WHAM estimator: window samples (window, sample,
colvar dimension), the thermal energy, per-window per-dimension force
constants and restraint centres, and the current per-window
normalisation estimates. -/
structure WHAM where
  data : List (List (List ℚ))
  KbT : ℚ
  force : List (List ℚ)
  centers : List (List ℚ)
  g : List ℚ
deriving DecidableEq, Repr

/-- Harmonic bias energy of one colvar dimension. -/
def biasEnergy (k x0 x : ℚ) : ℚ := k * (x - x0) ^ 2 / 2

/-- Modelled from the spec: positive computable stand-in for the
Boltzmann factor exp(-u/KbT). -/
def biasWeight (KbT u : ℚ) : ℚ := 1 / (1 + u / KbT)

/-- WHAM.setup: store the window samples, the temperature (converted
to thermal energy), the force constants and the restraint centres, and
initialise every window normalisation to 1. -/
def WHAM.setup (data : List (List (List ℚ))) (T : ℚ)
    (force : List (List ℚ)) (centers : List (List ℚ)) : WHAM :=
  { data := data, KbT := kB * T, force := force, centers := centers,
    g := List.replicate data.length 1 }

/-- All samples of all windows, flattened. -/
def WHAM.samples (w : WHAM) : List (List ℚ) := w.data.flatten

/-- Bias factor of a window with force constants `f` and restraint
centres `c`, evaluated at sample point `x` (product of the
per-dimension kernels). -/
def windowBias (KbT : ℚ) (f c x : List ℚ) : ℚ :=
  (List.zipWith (fun fc xv => biasWeight KbT (biasEnergy fc.1 fc.2 xv))
    (f.zip c) x).prod

/-- Per-window data of the estimator: samples of the window together
with its force constants and restraint centres. -/
def WHAM.windows (w : WHAM) : List (List (List ℚ) × List ℚ × List ℚ) :=
  w.data.zip (w.force.zip w.centers)

/-- Denominator of the self-consistent WHAM weight of a sample:
sum over windows of N_i c_i(x) / g_i. -/
def WHAM.denom (w : WHAM) (x : List ℚ) : ℚ :=
  (List.zipWith
    (fun wd gi => (wd.1.length : ℚ) * windowBias w.KbT wd.2.1 wd.2.2 x / gi)
    w.windows w.g).sum

/-- One iteration of the self-consistent WHAM equations: recompute the
per-window normalisations from the current unbiased sample weights. -/
def WHAM.step (w : WHAM) : List ℚ :=
  w.windows.map
    (fun wd =>
      (w.samples.map (fun x => windowBias w.KbT wd.2.1 wd.2.2 x / w.denom x)).sum)

/-- WHAM.converge: iterate the self-consistent equations until two
successive iterates differ by less than the threshold (fuel-bounded
rendering of the convergence loop; `none` means the loop has not
terminated within the given fuel). -/
def WHAM.converge : Nat → ℚ → WHAM → Option WHAM
  | 0, _, _ => none
  | fuel + 1, th, w =>
    let g' := w.step
    let w' := { w with g := g' }
    if maxAbsDiff w.g g' < th then some w' else WHAM.converge fuel th w'

/-- Converged (unnormalised) weight of each sample. -/
def WHAM.weights (w : WHAM) : List ℚ := w.samples.map (fun x => 1 / w.denom x)

/-- Index of the mesh bin holding value `v`, for a mesh of `nbins` bins
spanning [mn, mx] (clamped into range, as the top edge belongs to the
last bin). -/
def binIndex (mn mx : ℚ) (nbins : Nat) (v : ℚ) : Nat :=
  if mx ≤ mn then 0
  else min (nbins - 1) (Int.toNat ⌊(v - mn) * nbins / (mx - mn)⌋)

/-- WHAM.project_2d: project the converged sample weights onto a
discrete 2D mesh of `nbins` × `nbins` bins over the two given linear
combinations of the colvars, and return the free-energy profile
`profile2d` = -KbT log P on that mesh (with `np.log`'s extended-value
behaviour on empty bins). -/
def WHAM.project_2d (w : WHAM) (combinations : List (List ℚ)) (nbins : Nat) :
    List (List NFloat) :=
  let c1 := combinations.getD 0 []
  let c2 := combinations.getD 1 []
  let v1 := w.samples.map (fun x => dotQ c1 x)
  let v2 := w.samples.map (fun x => dotQ c2 x)
  let ws := w.weights
  let tot := ws.sum
  let pts := (v1.zip v2).zip ws
  let mn1 := listMin v1
  let mx1 := listMax v1
  let mn2 := listMin v2
  let mx2 := listMax v2
  (List.range nbins).map (fun b1 =>
    (List.range nbins).map (fun b2 =>
      let P := ((pts.filter (fun p =>
        binIndex mn1 mx1 nbins p.1.1 == b1 && binIndex mn2 mx2 nbins p.1.2 == b2)).map
          (fun p => p.2)).sum / tot
      NFloat.negScale w.KbT (nplog P)))

/-! ## Theorems for claims C1 and C7 -/

/-- When the convergence loop stops, the returned state is one
self-consistent update of its predecessor and differs from it by less
than the threshold. -/
theorem converge_stops (fuel : Nat) (th : ℚ) (w w' : WHAM)
    (h : WHAM.converge fuel th w = some w') :
    ∃ w0 : WHAM, w'.g = w0.step ∧ maxAbsDiff w0.g w'.g < th := by
  induction fuel generalizing w with
  | zero => simp [WHAM.converge] at h
  | succ n ih =>
    by_cases hc : maxAbsDiff w.g w.step < th
    · simp [WHAM.converge, hc] at h
      exact ⟨w, by rw [← h], by rw [← h]; exact hc⟩
    · simp [WHAM.converge, hc] at h
      exact ih _ h

/-- Claim C1: the WHAM estimator is an iterative self-consistent
reweighting: `WHAM.setup` stores the window samples, temperature, force
constants and restraint centres; `WHAM.converge` iterates the
self-consistent WHAM equations until successive iterates differ by less
than the given threshold; `WHAM.project_2d` then projects the converged
weights onto a discrete mesh of `nbins` bins over the given linear
combinations of colvars, producing the free-energy profile
`profile2d`. -/
theorem C1_wham_selfconsistent (fuel : Nat) (th : ℚ) (w w' : WHAM)
    (combs : List (List ℚ)) (nbins : Nat)
    (h : WHAM.converge fuel th w = some w') :
    (∃ w0 : WHAM, w'.g = w0.step ∧ maxAbsDiff w0.g w'.g < th) ∧
    (w'.project_2d combs nbins).length = nbins ∧
    (∀ row ∈ w'.project_2d combs nbins, row.length = nbins) := by
  refine ⟨converge_stops fuel th w w' h, ?_, ?_⟩
  · simp [WHAM.project_2d]
  · intro row hr
    simp only [WHAM.project_2d, List.mem_map] at hr
    obtain ⟨b1, _, rfl⟩ := hr
    simp

/-- Concrete WHAM instance for the C1 witness: one window, two 1D
samples, zero force constant. -/
def whamC1 : WHAM := WHAM.setup [[[0], [2]]] 300 [[0]] [[1]]

/-- Converged state reached from `whamC1` (the normalisations are
already self-consistent after one update). -/
def whamC1res : WHAM :=
  { data := [[[0], [2]]], KbT := kB * 300, force := [[0]],
    centers := [[1]], g := [1] }

/-- Evaluation fact used to discharge the C1 hypothesis: on the
concrete instance the loop stops after one self-consistent update. -/
theorem whamC1_converges : WHAM.converge 1 (1 / 100) whamC1 = some whamC1res := by
  show (if maxAbsDiff whamC1.g whamC1.step < 1 / 100
    then some { whamC1 with g := whamC1.step } else WHAM.converge 0 (1 / 100)
      { whamC1 with g := whamC1.step }) = some whamC1res
  norm_num [WHAM.step, WHAM.denom, WHAM.samples, WHAM.windows, windowBias,
    biasWeight, biasEnergy, maxAbsDiff, whamC1, whamC1res, WHAM.setup, kB]

theorem C1_wham_selfconsistent_witness :
    WHAM.converge 1 (1 / 100) whamC1 = some whamC1res ∧
    ((∃ w0 : WHAM, whamC1res.g = w0.step ∧
        maxAbsDiff w0.g whamC1res.g < 1 / 100) ∧
      (whamC1res.project_2d [[1], [1]] 3).length = 3 ∧
      (∀ row ∈ whamC1res.project_2d [[1], [1]] 3, row.length = 3)) :=
  ⟨whamC1_converges, C1_wham_selfconsistent 1 (1 / 100) whamC1 whamC1res
    [[1], [1]] 3 whamC1_converges⟩

/-- Concrete WHAM instance for claim C7: two samples at the ends of the
projected range, so that with three bins the middle bin is empty. -/
def whamC7 : WHAM := WHAM.setup [[[0], [2]]] 300 [[0]] [[1]]

/-- Claim C7: `WHAM.project_2d` takes the logarithm of the binned
probabilities without guarding empty bins: on a concrete input whose
middle bin holds zero probability the profile value there is infinite
(the extended value `np.log 0 = -inf` scaled by `-KbT`), while occupied
bins get finite values; the function is total — no error is raised and
no error branch exists. -/
theorem C7_project2d_log_of_empty_bin :
    ((whamC7.project_2d [[1], [1]] 3).getD 1 []).getD 1 (NFloat.fin 0)
        = NFloat.posinf ∧
    ((whamC7.project_2d [[1], [1]] 3).getD 0 []).getD 0 (NFloat.fin 0)
        ≠ NFloat.posinf := by
  norm_num [WHAM.project_2d, WHAM.weights, WHAM.denom, WHAM.samples,
    WHAM.windows, windowBias, biasWeight, biasEnergy, whamC7, WHAM.setup,
    kB, dotQ, listMin, listMax, binIndex, nplog, logApprox, NFloat.negScale,
    List.range_succ, List.filter]
  norm_num [show ((0 : Nat) == 1) = false from rfl,
    show ((2 : Nat) == 1) = false from rfl,
    show ((2 : Nat) == 0) = false from rfl, NFloat.negScale]
  intro h
  cases h

/-! ## String optimisation

Modelled from the spec: `optimize_string` and `generate_data` live in
`aux.py`, which is not among the given sources.  The spec describes the
step as "fitting/reparametrizing a path through window averages" with a
"path-reparametrization-by-arclength routine", and the string-method
notebook says a polynomial is fitted to the averages and split again
equidistantly.  The model fits the interpolating polynomial through the
window averages (parametrised by window index), discretises it on a
fine grid, and places the new restraint positions at equal fractions of
the discretised arclength; the square root in the segment lengths is a
computable rational Newton approximation. -/

/-- Interpolation nodes 0, 1, ..., n-1 as rationals. -/
def nodesQ (n : Nat) : List ℚ := List.map Nat.cast (List.range n)

/-- Lagrange basis polynomial for node `i` of the node list `xs`,
evaluated at `x`. -/
def lagrangeBasis (xs : List ℚ) (i : Nat) (x : ℚ) : ℚ :=
  (((List.range xs.length).filter (fun j => j != i)).map
    (fun j => (x - xs.getD j 0) / (xs.getD i 0 - xs.getD j 0))).prod

/-- Value at `x` of the polynomial through the points (xs_i, ys_i)
(Lagrange form). -/
def evalLagrange (xs ys : List ℚ) (x : ℚ) : ℚ :=
  ((List.range xs.length).map (fun i => ys.getD i 0 * lagrangeBasis xs i x)).sum

/-- First coordinate of the fitted parametric curve through the window
averages, as a polynomial in the window-index parameter. -/
def fitX (avg : List (ℚ × ℚ)) (t : ℚ) : ℚ :=
  evalLagrange (nodesQ avg.length) (avg.map Prod.fst) t

/-- Second coordinate of the fitted parametric curve. -/
def fitY (avg : List (ℚ × ℚ)) (t : ℚ) : ℚ :=
  evalLagrange (nodesQ avg.length) (avg.map Prod.snd) t

/-- Point of the fitted curve at parameter `t`. -/
def fittedPath (avg : List (ℚ × ℚ)) (t : ℚ) : ℚ × ℚ := (fitX avg t, fitY avg t)

/-- Newton iteration for the square root. -/
def ratSqrtAux : Nat → ℚ → ℚ → ℚ
  | 0, _, x => x
  | n + 1, q, x => ratSqrtAux n q ((x + q / x) / 2)

/-- Computable rational approximation of the square root (exact square
roots of rationals are in general irrational). -/
def ratSqrt (q : ℚ) : ℚ := if q ≤ 0 then 0 else ratSqrtAux 12 q (1 + q / 2)

/-- Approximate Euclidean length of one polyline segment. -/
def segLen (p q : ℚ × ℚ) : ℚ := ratSqrt ((q.1 - p.1) ^ 2 + (q.2 - p.2) ^ 2)

/-- Cumulative arclengths of the tail of a polyline, starting from the
given previous vertex and accumulated length. -/
def cumAux (prev : ℚ × ℚ) (acc : ℚ) : List (ℚ × ℚ) → List ℚ
  | [] => []
  | q :: rest => (acc + segLen prev q) :: cumAux q (acc + segLen prev q) rest

/-- Cumulative arclength at each vertex of a polyline (0 for the first
vertex). -/
def cumLens : List (ℚ × ℚ) → List ℚ
  | [] => []
  | p :: rest => 0 :: cumAux p 0 rest

/-- Total discretised arclength of a polyline. -/
def totalLen (l : List (ℚ × ℚ)) : ℚ := (cumLens l).getLastD 0

/-- Linear interpolation between two points. -/
def lerp (p q : ℚ × ℚ) (t : ℚ) : ℚ × ℚ :=
  (p.1 + t * (q.1 - p.1), p.2 + t * (q.2 - p.2))

/-- Walk a polyline (tail paired with cumulative lengths) and return
the point at arclength `s`. -/
def pointAtAux : ℚ × ℚ → ℚ → List ((ℚ × ℚ) × ℚ) → ℚ → ℚ × ℚ
  | p, _, [], _ => p
  | p, cp, (q, cq) :: rest, s =>
    if s ≤ cq then
      (if cq = cp then q else lerp p q ((s - cp) / (cq - cp)))
    else pointAtAux q cq rest s

/-- Point at arclength `s` along a polyline with cumulative lengths
`cums`. -/
def pointAtArc (pts : List (ℚ × ℚ)) (cums : List ℚ) (s : ℚ) : ℚ × ℚ :=
  match pts, cums with
  | p :: pr, c :: cr => pointAtAux p c (pr.zip cr) s
  | _, _ => (0, 0)

/-- Fine discretisation of the fitted curve over the parameter range
[0, n-1]. -/
def fineGrid (avg : List (ℚ × ℚ)) : List (ℚ × ℚ) :=
  List.map
    (fun j : Nat => fittedPath avg ((j : ℚ) * ((avg.length : ℚ) - 1) / (8 * avg.length : ℚ)))
    (List.range (8 * avg.length + 1))

/-- Arclength targets of the new string: equal fractions of the total
fitted-path length, one per window. -/
def arcTargets (avg : List (ℚ × ℚ)) : List ℚ :=
  List.map
    (fun k : Nat => (k : ℚ) * totalLen (fineGrid avg) / ((avg.length : ℚ) - 1))
    (List.range avg.length)

/-- optimize_string: fit the polynomial path through the window
averages and return the same number of restraint positions, spaced
equidistantly by arclength along the fitted path. -/
def optimize_string (avg : List (ℚ × ℚ)) : List (ℚ × ℚ) :=
  (arcTargets avg).map (pointAtArc (fineGrid avg) (cumLens (fineGrid avg)))

/-- Modelled from the spec: `generate_data` of `aux.py` (a stochastic
Monte-Carlo sampler) is not among the given sources; the string loop is
modelled over an arbitrary sampler `gen` mapping the current restraint
positions to per-window sample data. -/
def meanPositions (data : List (List (ℚ × ℚ))) : List (ℚ × ℚ) :=
  data.map (fun wnd =>
    ((wnd.map Prod.fst).sum / wnd.length, (wnd.map Prod.snd).sum / wnd.length))

/-- One iteration of the string loop: sample with the current
restraints, then reparametrise through the window averages. -/
def stringIter (gen : List (ℚ × ℚ) → List (List (ℚ × ℚ)))
    (restraint : List (ℚ × ℚ)) : List (ℚ × ℚ) :=
  optimize_string (meanPositions (gen restraint))

/-- The string loop of the notebook: alternate sampling and
reparametrisation for the given number of iterations. -/
def stringLoop (gen : List (ℚ × ℚ) → List (List (ℚ × ℚ))) :
    Nat → List (ℚ × ℚ) → List (ℚ × ℚ)
  | 0, r => r
  | i + 1, r => stringLoop gen i (stringIter gen r)

/-- Sum over `List.range n` of a function vanishing everywhere except
at `k`. -/
theorem sum_map_range_eq_single (f : Nat → ℚ) (n k : Nat) (hk : k < n)
    (h0 : ∀ i, i < n → i ≠ k → f i = 0) :
    ((List.range n).map f).sum = f k := by
  induction n with
  | zero => exact absurd hk (Nat.not_lt_zero k)
  | succ n ih =>
    rw [List.range_succ, List.map_append, List.sum_append]
    simp only [List.map_cons, List.map_nil, List.sum_cons, List.sum_nil]
    by_cases hkn : k = n
    · subst hkn
      have hz : ((List.range k).map f).sum = 0 := by
        apply List.sum_eq_zero
        intro x hx
        simp only [List.mem_map, List.mem_range] at hx
        obtain ⟨i, hi, rfl⟩ := hx
        exact h0 i (by omega) (by omega)
      rw [hz]
      ring
    · have hfn : f n = 0 := h0 n (by omega) (by omega)
      rw [hfn, ih (by omega) (fun i hi hik => h0 i (by omega) hik)]
      ring

/-- The node list has length `n`. -/
theorem nodesQ_length (n : Nat) : (nodesQ n).length = n := by
  rw [nodesQ, List.length_map, List.length_range]

/-- Value of the node list at an in-range index. -/
theorem nodesQ_getD (n j : Nat) (h : j < n) : (nodesQ n).getD j 0 = (j : ℚ) := by
  rw [List.getD_eq_getElem _ _ (by rw [nodesQ_length]; exact h)]
  simp only [nodesQ, List.getElem_map, List.getElem_range]

/-- The Lagrange basis of node `i` vanishes at a different node `k`. -/
theorem lagrangeBasis_node_ne (n i k : Nat) (hk : k < n) (hik : i ≠ k) :
    lagrangeBasis (nodesQ n) i ((k : ℚ)) = 0 := by
  apply List.prod_eq_zero
  simp only [List.mem_map, List.mem_filter, List.mem_range]
  refine ⟨k, ⟨?_, ?_⟩, ?_⟩
  · rw [nodesQ_length]
    exact hk
  · simpa using Ne.symm hik
  · rw [nodesQ_getD n k hk]
    simp

/-- The Lagrange basis of node `k` is 1 at node `k`. -/
theorem lagrangeBasis_node_self (n k : Nat) (hk : k < n) :
    lagrangeBasis (nodesQ n) k ((k : ℚ)) = 1 := by
  apply List.prod_eq_one
  intro x hx
  simp only [List.mem_map, List.mem_filter, List.mem_range, nodesQ_length] at hx
  obtain ⟨j, ⟨hj, hjk⟩, rfl⟩ := hx
  have hjk' : j ≠ k := by simpa using hjk
  rw [nodesQ_getD n j hj, nodesQ_getD n k hk]
  have hkj : (k : ℚ) ≠ (j : ℚ) := by exact_mod_cast Ne.symm hjk'
  exact div_self (sub_ne_zero.mpr hkj)

/-- The interpolating polynomial passes through every data point. -/
theorem evalLagrange_node (n k : Nat) (ys : List ℚ) (hk : k < n) :
    evalLagrange (nodesQ n) ys ((k : ℚ)) = ys.getD k 0 := by
  unfold evalLagrange
  rw [nodesQ_length]
  rw [sum_map_range_eq_single _ n k hk
    (fun i hi hik => by rw [lagrangeBasis_node_ne n i k hk hik, mul_zero])]
  rw [lagrangeBasis_node_self n k hk, mul_one]

/-- A mapped list's getD at an in-range index. -/
theorem getD_map_fst (l : List (ℚ × ℚ)) (k : Nat) (h : k < l.length) :
    (l.map Prod.fst).getD k 0 = (l.getD k (0, 0)).1 := by
  rw [List.getD_eq_getElem _ _ (by simpa using h), List.getD_eq_getElem _ _ h]
  simp

/-- A mapped list's getD at an in-range index, second coordinate. -/
theorem getD_map_snd (l : List (ℚ × ℚ)) (k : Nat) (h : k < l.length) :
    (l.map Prod.snd).getD k 0 = (l.getD k (0, 0)).2 := by
  rw [List.getD_eq_getElem _ _ (by simpa using h), List.getD_eq_getElem _ _ h]
  simp

/-- Claim C2: `optimize_string` takes the per-window average sampled
positions, fits a polynomial through those averages, and returns a new
string with the same number of restraint positions spaced equidistantly
by arclength along the fitted path (equal consecutive arclength
targets); each iteration of the string loop alternates `generate_data`
sampling (modelled by the sampler `gen`) with this reparametrisation. -/
theorem C2_optimize_string (avg : List (ℚ × ℚ)) (k : Nat)
    (hk : k < avg.length) :
    (optimize_string avg).length = avg.length ∧
    fittedPath avg ((k : ℚ)) = avg.getD k (0, 0) ∧
    (∀ j, (arcTargets avg).getD (j + 1) 0 - (arcTargets avg).getD j 0
        = totalLen (fineGrid avg) / ((avg.length : ℚ) - 1) ∨
      ¬(j + 1 < avg.length)) ∧
    (∀ gen i r, stringLoop gen (i + 1) r
        = stringLoop gen i (optimize_string (meanPositions (gen r)))) := by
  have hlen : ∀ l : List (ℚ × ℚ), (arcTargets l).length = l.length := by
    intro l
    rw [arcTargets, List.length_map, List.length_range]
  refine ⟨?_, ?_, ?_, ?_⟩
  · rw [optimize_string, List.length_map, hlen]
  · unfold fittedPath fitX fitY
    rw [evalLagrange_node avg.length k _ hk, evalLagrange_node avg.length k _ hk,
      getD_map_fst avg k hk, getD_map_snd avg k hk]
  · intro j
    by_cases hj : j + 1 < avg.length
    · left
      have h1 : (arcTargets avg).getD (j + 1) 0
          = ((j + 1 : Nat) : ℚ) * totalLen (fineGrid avg) / ((avg.length : ℚ) - 1) := by
        rw [List.getD_eq_getElem _ _ (by rw [hlen]; exact hj)]
        simp only [arcTargets, List.getElem_map, List.getElem_range]
      have h2 : (arcTargets avg).getD j 0
          = ((j : Nat) : ℚ) * totalLen (fineGrid avg) / ((avg.length : ℚ) - 1) := by
        rw [List.getD_eq_getElem _ _ (by rw [hlen]; omega)]
        simp only [arcTargets, List.getElem_map, List.getElem_range]
      rw [h1, h2]
      push_cast
      ring
    · right
      exact hj
  · intro gen i r
    rfl

/-- Witness for C2: the theorem applied to a concrete three-window
string of averages. -/
theorem C2_optimize_string_witness :
    (1 : Nat) < ([((0 : ℚ), (0 : ℚ)), (1, 1), (2, 0)] : List (ℚ × ℚ)).length ∧
    ((optimize_string [((0 : ℚ), (0 : ℚ)), (1, 1), (2, 0)]).length
        = ([((0 : ℚ), (0 : ℚ)), (1, 1), (2, 0)] : List (ℚ × ℚ)).length ∧
      fittedPath [((0 : ℚ), (0 : ℚ)), (1, 1), (2, 0)] ((1 : Nat) : ℚ)
        = ([((0 : ℚ), (0 : ℚ)), (1, 1), (2, 0)] : List (ℚ × ℚ)).getD 1 (0, 0) ∧
      (∀ j, (arcTargets [((0 : ℚ), (0 : ℚ)), (1, 1), (2, 0)]).getD (j + 1) 0
          - (arcTargets [((0 : ℚ), (0 : ℚ)), (1, 1), (2, 0)]).getD j 0
          = totalLen (fineGrid [((0 : ℚ), (0 : ℚ)), (1, 1), (2, 0)])
            / ((([((0 : ℚ), (0 : ℚ)), (1, 1), (2, 0)] : List (ℚ × ℚ)).length : ℚ) - 1) ∨
        ¬(j + 1 < ([((0 : ℚ), (0 : ℚ)), (1, 1), (2, 0)] : List (ℚ × ℚ)).length)) ∧
      (∀ gen i r, stringLoop gen (i + 1) r
          = stringLoop gen i (optimize_string (meanPositions (gen r))))) :=
  ⟨by norm_num, C2_optimize_string [((0 : ℚ), (0 : ℚ)), (1, 1), (2, 0)] 1 (by norm_num)⟩

/-! ## Unbinding driver

Modelled from the spec: `Arguments` and `run` come from `main.py`,
which is not among the given sources (the notebook only imports and
calls them).  The spec describes the driver as "a scripted loop around
an external MD engine (NAMD) that reads/writes trajectory files and
checkpoints a contact list"; the notebook's argument table, markdown
and captured outputs fix the behaviour modelled here: contact tracking
with a cutoff, exclusion of a contact when the average distance over
the last quarter of the trajectory exceeds maxdist, a binary checkpoint
that is written unless `nosave` and loaded automatically, NAMD input
writing unless `processonly`, and a colvar file holding one summed
distance colvar with a shifted harmonic bias.  The trajectory analysis
is modelled as a deterministic replay over the trajectory environment,
matching the notebook's recorded reruns, which reproduce the original
outputs exactly. -/

/-- A tracked ligand-protein contact pair: the representative atom
indices, residues and types printed by the driver, and the atom groups
used for the centre-of-mass colvar. -/
structure Contact where
  ligIdx : Nat
  ligRes : Nat
  ligType : String
  protIdx : Nat
  protRes : Nat
  protType : String
  ligGroup : List Nat
  protGroup : List Nat
deriving DecidableEq, Repr

/-- Trajectory environment: for each trajectory index, the tracked
candidate contact pairs with their distance time series (in Å). -/
structure UnbEnv where
  trajPairs : Nat → List (Contact × List ℚ)

/-- The `Arguments` object of the driver, with the defaults of the
notebook's argument table (cutoff 3.5 Å, maxdist 9.0 Å); the ligand
and topology arguments are modelled as optional, `none` meaning the
user did not supply them. -/
structure Arguments where
  lig : Option String := none
  top : Option String := none
  cutoff : ℚ := 3.5
  maxdist : ℚ := 9.0
  processonly : Bool := false
  nosave : Bool := false
  trajectory : Option Nat := none
  cumulative : Bool := false
  report : Bool := false
deriving Repr

/-- Analysis configuration extracted from the arguments. -/
structure UnbConfig where
  cutoff : ℚ
  maxdist : ℚ
deriving DecidableEq, Repr

/-- Configuration in effect for a call with the given arguments. -/
def cfgOf (args : Arguments) : UnbConfig :=
  { cutoff := args.cutoff, maxdist := args.maxdist }

/-- Average of a distance series over the last quarter of the
trajectory. -/
def avgLastQuarter (xs : List ℚ) : ℚ :=
  let tail := xs.drop (3 * xs.length / 4)
  tail.sum / tail.length

/-- Distance series of a given contact in trajectory `n` (empty when
the pair is not tracked there). -/
def seriesOf (env : UnbEnv) (n : Nat) (c : Contact) : List ℚ :=
  match (env.trajPairs n).find? (fun p => decide (p.1 = c)) with
  | some p => p.2
  | none => []

/-- Contacts biased in cycle `n` (deterministic replay from the start):
the previous cycle's contacts that were not excluded, followed by the
newly detected contacts whose minimum distance fell below the cutoff. -/
def usedPairs (env : UnbEnv) (cfg : UnbConfig) : Nat → List Contact
  | 0 => []
  | n + 1 =>
    let prev := usedPairs env cfg n
    let kept := prev.filter
      (fun c => decide (avgLastQuarter (seriesOf env (n + 1) c) ≤ cfg.maxdist))
    let fresh := ((env.trajPairs (n + 1)).filter
      (fun p => !decide (p.1 ∈ prev) && decide (listMin p.2 < cfg.cutoff))).map Prod.fst
    kept ++ fresh

/-- Contacts excluded while processing cycle `n`, with the offending
average distance over the last quarter of the trajectory. -/
def cycleExclusions (env : UnbEnv) (cfg : UnbConfig) : Nat → List (Contact × ℚ)
  | 0 => []
  | n + 1 =>
    ((usedPairs env cfg n).filter
      (fun c => decide (cfg.maxdist < avgLastQuarter (seriesOf env (n + 1) c)))).map
      (fun c => (c, avgLastQuarter (seriesOf env (n + 1) c)))

/-- One printed line of the driver's standard output, in structured
form. -/
inductive OutLine where
  | header (n : Nat)
  | blank
  | pairsUsed
  | pairLine (ligIdx ligRes : Nat) (ligType : String)
      (protIdx protRes : Nat) (protType : String)
  | exclusion (c : Contact) (avg : ℚ)
  | cumulativeHeader
  | reportIteration (n : Nat)
  | reportContacts (n : Nat)
  | reportCutoffs (cutoff maxdist : ℚ)
  | reportClusters (cs : List (List String))
  | reportPaths (workdir checkpoint top output : String)
deriving DecidableEq, Repr

/-- Output line printed for one biased pair. -/
def pairLineOf (c : Contact) : OutLine :=
  OutLine.pairLine c.ligIdx c.ligRes c.ligType c.protIdx c.protRes c.protType

/-- Printed output of processing trajectory `n`: the exclusion
messages, then the trajectory header and the pair list header, then
one line per biased pair. -/
def analyzeOut (env : UnbEnv) (cfg : UnbConfig) (n : Nat) : List OutLine :=
  (cycleExclusions env cfg n).map (fun e => OutLine.exclusion e.1 e.2)
    ++ [OutLine.header n, OutLine.blank, OutLine.pairsUsed]
    ++ (usedPairs env cfg n).map pairLineOf

/-- The checkpointed state of the driver. -/
structure Checkpoint where
  contacts : List Contact
  iteration : Nat
  cutoff : ℚ
  maxdist : ℚ
  lig : String
  ligClusters : List (List String)
  top : String
  template : String
  workdir : String
  outfile : String
deriving DecidableEq, Repr

/-- One distance component of the summed colvar: componentCoeff and the
two centre-of-mass atom groups. -/
structure ColvarDistance where
  componentCoeff : ℚ
  group1 : List Nat
  group2 : List Nat
deriving DecidableEq, Repr

/-- The harmonic bias block of the colvar file. -/
structure HarmonicBias where
  colvars : String
  centers : ℚ
  targetCenters : ℚ
  targetNumSteps : Nat
  forceConstant : ℚ
deriving DecidableEq, Repr

/-- A generated colvar file: a single collective variable made of
distance components, and a single harmonic bias on it. -/
structure ColvarFile where
  name : String
  distances : List ColvarDistance
  harmonic : HarmonicBias
deriving DecidableEq, Repr

/-- The colvar file written for a contact list whose current summed
distance is `center`: one distance per contact with componentCoeff 1.0,
and one harmonic bias moving the sum from `center` to `center + 4.0` Å
over 5000000 steps with force constant 20. -/
def colvarOf (contacts : List Contact) (center : ℚ) : ColvarFile :=
  { name := "sum_1",
    distances := contacts.map
      (fun c => { componentCoeff := 1, group1 := c.ligGroup, group2 := c.protGroup }),
    harmonic :=
      { colvars := "sum_1", centers := center, targetCenters := center + 4,
        targetNumSteps := 5000000, forceConstant := 20 } }

/-- Current value of the summed contact distance at the end of
trajectory `n`. -/
def sumAtEnd (env : UnbEnv) (n : Nat) (contacts : List Contact) : ℚ :=
  (contacts.map (fun c => (seriesOf env n c).getLastD 0)).sum

/-- Content of a file written to the working directory. -/
inductive FileData where
  | inp (text : String)
  | col (c : ColvarFile)
deriving DecidableEq, Repr

/-- The working directory: the optional binary checkpoint and the
written files (path, content). -/
structure UnbState where
  checkpoint : Option Checkpoint
  files : List (String × FileData)
deriving DecidableEq, Repr

/-- Representative part of the checkpointed NAMD input template, with
the placeholders controlled by the unbinding algorithm. -/
def namdTemplate : String :=
  "outputName traj_{0:d};\nbinCoordinates ../traj_{1:d}/traj_{1:d}.restart.coor;\ncolvarsConfig sum_{0:d}.col\nrun {2:d};"

/-- Instantiation of the NAMD template for iteration `n` (the previous
iteration's restart files and this iteration's colvar file). -/
def instantiateTemplate (template : String) (n : Nat) : String :=
  ((template.replace "{0:d}" (toString n)).replace "{1:d}" (toString (n - 1))).replace
    "{2:d}" (toString 5000000)

/-- Fresh checkpoint created from explicit ligand and topology
arguments (iteration 0, no contacts yet; the ligand clusters come from
toppar/LIG_clusters.dat, recorded in the notebook as "N1 N2 C7"). -/
def freshCheckpoint (args : Arguments) (l t : String) : Checkpoint :=
  { contacts := [], iteration := 0, cutoff := args.cutoff,
    maxdist := args.maxdist, lig := l, ligClusters := [["N1", "N2", "C7"]],
    top := t, template := namdTemplate, workdir := "example",
    outfile := "unbinding.out" }

/-- Report output: the checkpointed state (current iteration,
identified contacts, cutoffs, ligand clusters, file paths). -/
def reportLines (cp : Checkpoint) : List OutLine :=
  [OutLine.reportIteration cp.iteration,
   OutLine.reportContacts cp.contacts.length,
   OutLine.reportCutoffs cp.cutoff cp.maxdist,
   OutLine.reportClusters cp.ligClusters,
   OutLine.reportPaths cp.workdir ".checkpoint" cp.top cp.outfile]

/-- The driver's `run`: load the checkpoint (or initialise it from the
ligand and topology arguments), optionally just report, otherwise
process the next trajectory (or the one requested by `trajectory`),
write the next iteration's NAMD input and colvar files unless
`processonly`, and save the updated checkpoint unless `nosave`. -/
def run (env : UnbEnv) (args : Arguments) (s : UnbState) :
    Except String (UnbState × List OutLine) :=
  let cpE : Except String Checkpoint :=
    if args.cumulative then
      match args.lig, args.top with
      | some l, some t => Except.ok (freshCheckpoint args l t)
      | _, _ => Except.error "cumulative reprocessing requires the initial setup parameters"
    else
      match s.checkpoint with
      | some cp => Except.ok cp
      | none =>
        match args.lig, args.top with
        | some l, some t => Except.ok (freshCheckpoint args l t)
        | _, _ => Except.error "no checkpoint found and no ligand and topology given"
  match cpE with
  | Except.error e => Except.error e
  | Except.ok cp =>
    if args.report then Except.ok (s, reportLines cp)
    else
      let cfg := cfgOf args
      let base := match args.trajectory with
        | some k => k
        | none => cp.iteration
      let n := base + 1
      let out :=
        if args.cumulative then
          OutLine.cumulativeHeader ::
            (List.range n).flatMap (fun i => analyzeOut env cfg (i + 1))
        else analyzeOut env cfg n
      let contacts := usedPairs env cfg n
      let files :=
        if args.processonly then s.files
        else
          s.files ++
            [("traj_" ++ toString n ++ "/traj_" ++ toString n ++ ".inp",
              FileData.inp (instantiateTemplate cp.template n)),
             ("traj_" ++ toString n ++ "/sum_" ++ toString n ++ ".col",
              FileData.col (colvarOf contacts (sumAtEnd env n contacts)))]
      let cp' := if args.nosave then s.checkpoint
        else some { cp with contacts := contacts, iteration := n }
      Except.ok ({ checkpoint := cp', files := files }, out)

/-- A call with all arguments left at their defaults. -/
def defaultArguments : Arguments := {}

/-- The `processonly=True` call of the notebook. -/
def processonlyArguments : Arguments := { processonly := true }

/-- The `report=True` call of the notebook. -/
def reportArguments : Arguments := { report := true }

/-- The `nosave=True, trajectory=k` rerun call of the notebook (with
`processonly=True`, as in the notebook cell). -/
def rerunArguments (k : Nat) : Arguments :=
  { processonly := true, nosave := true, trajectory := some k }

/-! ## Theorems for claims C3 to C9 -/

/-- Exclusion messages recorded in the notebook outputs: the maxdist in
effect for the cell and the reported average distance (Å).  The first
nine come from cells run with the default maxdist 9.0 (the ninth is the
nosave rerun of trajectory 8, which repeats the 9.88 message), the next
five from the cumulative rerun with maxdist=6, the last four from the
rerun with maxdist=5. -/
def recordedExclusions : List (ℚ × ℚ) :=
  [(9, 9.43), (9, 10.74), (9, 9.88), (9, 10.75), (9, 10.50), (9, 9.28),
   (9, 9.51), (9, 9.45), (9, 9.88),
   (6, 7.17), (6, 6.56), (6, 6.14), (6, 6.80), (6, 6.16),
   (5, 7.17), (5, 6.56), (5, 5.60), (5, 5.86)]

/-- Claim C3: a tracked contact is excluded from the next cycle's bias
exactly when its average distance over the last quarter of the
trajectory exceeds the maxdist in effect (default 9.0 Å), and every
exclusion message recorded in the notebook reports an average strictly
greater than the active maxdist. -/
theorem C3_exclusion_rule :
    defaultArguments.maxdist = 9 ∧
    (∀ (env : UnbEnv) (cfg : UnbConfig) (n : Nat) (c : Contact) (a : ℚ),
      (c, a) ∈ cycleExclusions env cfg (n + 1) ↔
        (c ∈ usedPairs env cfg n ∧
          a = avgLastQuarter (seriesOf env (n + 1) c) ∧
          cfg.maxdist < a)) ∧
    (∀ p ∈ recordedExclusions, p.1 < p.2) := by
  refine ⟨by norm_num [defaultArguments], ?_, ?_⟩
  · intro env cfg n c a
    constructor
    · intro h
      simp only [cycleExclusions, List.mem_map, List.mem_filter,
        decide_eq_true_eq] at h
      obtain ⟨c', ⟨hm, hgt⟩, heq⟩ := h
      injection heq with h1 h2
      subst h1
      subst h2
      exact ⟨hm, rfl, hgt⟩
    · rintro ⟨hm, rfl, hgt⟩
      simp only [cycleExclusions, List.mem_map, List.mem_filter,
        decide_eq_true_eq]
      exact ⟨c, ⟨hm, hgt⟩, rfl⟩
  · intro p hp
    fin_cases hp <;> norm_num

/-- Witness for C3: the exclusion-rule theorem applied at the first
recorded message (maxdist 9, reported average 9.43 Å). -/
theorem C3_exclusion_rule_witness :
    ((9 : ℚ), (9.43 : ℚ)) ∈ recordedExclusions ∧ (9 : ℚ) < 9.43 :=
  ⟨by simp [recordedExclusions],
   C3_exclusion_rule.2.2 (9, 9.43) (by simp [recordedExclusions])⟩

/-- Claim C4: a run without `nosave` persists the contact list and the
iteration counter to the checkpoint; a subsequent run loads its state
from the checkpoint automatically, so consecutive calls process
consecutive trajectories without re-supplying the ligand and topology
arguments; and `run` with `report=True` reports the checkpointed state
(iteration, identified contacts, cutoffs, ligand clusters and file
paths). -/
theorem C4_checkpoint_roundtrip :
    (∀ (env : UnbEnv) (args : Arguments) (s : UnbState) (l t : String),
      s.checkpoint = none → args.lig = some l → args.top = some t →
      args.cumulative = false → args.report = false → args.nosave = false →
      args.trajectory = none →
      ∃ st out, run env args s = Except.ok (st, out) ∧
        st.checkpoint = some { freshCheckpoint args l t with
          contacts := usedPairs env (cfgOf args) 1, iteration := 1 }) ∧
    (∀ (env : UnbEnv) (s : UnbState) (cp : Checkpoint),
      s.checkpoint = some cp →
      ∃ st out, run env defaultArguments s = Except.ok (st, out) ∧
        OutLine.header (cp.iteration + 1) ∈ out ∧
        st.checkpoint = some { cp with
          contacts := usedPairs env (cfgOf defaultArguments) (cp.iteration + 1),
          iteration := cp.iteration + 1 }) ∧
    (∀ (env : UnbEnv) (s : UnbState) (cp : Checkpoint),
      s.checkpoint = some cp →
      run env reportArguments s = Except.ok (s, reportLines cp) ∧
      OutLine.reportIteration cp.iteration ∈ reportLines cp ∧
      OutLine.reportContacts cp.contacts.length ∈ reportLines cp ∧
      OutLine.reportCutoffs cp.cutoff cp.maxdist ∈ reportLines cp ∧
      OutLine.reportClusters cp.ligClusters ∈ reportLines cp ∧
      OutLine.reportPaths cp.workdir ".checkpoint" cp.top cp.outfile ∈ reportLines cp) := by
  refine ⟨?_, ?_, ?_⟩
  · intro env args s l t h0 hlig htop hcum hrep hnos htraj
    simp only [run, hcum, hrep, hnos, htraj, h0, hlig, htop, Bool.false_eq_true,
      if_false, reduceIte]
    exact ⟨_, _, rfl, rfl⟩
  · intro env s cp hcp
    simp only [run, defaultArguments, hcp, Bool.false_eq_true, if_false, reduceIte]
    refine ⟨_, _, rfl, ?_, rfl⟩
    simp [analyzeOut]
  · intro env s cp hcp
    refine ⟨?_, by simp [reportLines], by simp [reportLines], by simp [reportLines],
      by simp [reportLines], by simp [reportLines]⟩
    simp only [run, reportArguments, hcp, Bool.false_eq_true, if_false, reduceIte]

/-- Concrete contact used by the run witnesses (the first pair printed
by the notebook). -/
def contactW : Contact :=
  { ligIdx := 3227, ligRes := 5, ligType := "C7", protIdx := 2486,
    protRes := 190, protType := "O", ligGroup := [3230, 3228, 3229],
    protGroup := [2487] }

/-- Concrete trajectory environment used by the run witnesses. -/
def envW : UnbEnv := { trajPairs := fun _ => [(contactW, [3, 3, 3, 3])] }

/-- Concrete checkpoint used by the run witnesses. -/
def cpW : Checkpoint := freshCheckpoint defaultArguments "BEN" "topology_clean.pdb"

/-- Concrete working-directory state used by the run witnesses. -/
def stateW : UnbState := { checkpoint := some cpW, files := [] }

/-- Witness for C4: the checkpoint-roundtrip theorem applied to a
concrete environment and checkpointed state. -/
theorem C4_checkpoint_roundtrip_witness :
    stateW.checkpoint = some cpW ∧
    (∃ st out, run envW defaultArguments stateW = Except.ok (st, out) ∧
      OutLine.header (cpW.iteration + 1) ∈ out ∧
      st.checkpoint = some { cpW with
        contacts := usedPairs envW (cfgOf defaultArguments) (cpW.iteration + 1),
        iteration := cpW.iteration + 1 }) :=
  ⟨rfl, C4_checkpoint_roundtrip.2.1 envW stateW cpW rfl⟩

/-- Claim C5: `run` with `processonly=True` only analyses the
trajectory and writes no files, while `run` without `processonly`
additionally writes exactly the next iteration's NAMD input file
traj_{n}/traj_{n}.inp (instantiated from the checkpointed template) and
the colvar file traj_{n}/sum_{n}.col; nothing else in the working
directory is modified. -/
theorem C5_processonly_frame :
    (∀ (env : UnbEnv) (s : UnbState) (cp : Checkpoint),
      s.checkpoint = some cp →
      ∃ st out, run env processonlyArguments s = Except.ok (st, out) ∧
        st.files = s.files) ∧
    (∀ (env : UnbEnv) (s : UnbState) (cp : Checkpoint),
      s.checkpoint = some cp →
      ∃ st out, run env defaultArguments s = Except.ok (st, out) ∧
        st.files = s.files ++
          [("traj_" ++ toString (cp.iteration + 1) ++ "/traj_"
              ++ toString (cp.iteration + 1) ++ ".inp",
            FileData.inp (instantiateTemplate cp.template (cp.iteration + 1))),
           ("traj_" ++ toString (cp.iteration + 1) ++ "/sum_"
              ++ toString (cp.iteration + 1) ++ ".col",
            FileData.col (colvarOf
              (usedPairs env (cfgOf defaultArguments) (cp.iteration + 1))
              (sumAtEnd env (cp.iteration + 1)
                (usedPairs env (cfgOf defaultArguments) (cp.iteration + 1)))))]) := by
  constructor
  · intro env s cp hcp
    simp only [run, processonlyArguments, hcp, Bool.false_eq_true, if_false,
      reduceIte]
    exact ⟨_, _, rfl, rfl⟩
  · intro env s cp hcp
    simp only [run, defaultArguments, hcp, Bool.false_eq_true, if_false,
      reduceIte]
    exact ⟨_, _, rfl, rfl⟩

/-- Witness for C5: the frame theorem applied to the concrete
checkpointed state. -/
theorem C5_processonly_frame_witness :
    stateW.checkpoint = some cpW ∧
    (∃ st out, run envW processonlyArguments stateW = Except.ok (st, out) ∧
      st.files = stateW.files) :=
  ⟨rfl, C5_processonly_frame.1 envW stateW cpW rfl⟩

/-- Claim C6: rerunning an already processed step with `nosave=True`
and `trajectory=k` re-processes trajectory k+1 and produces exactly the
same analysis output as the original processing of that trajectory, and
leaves the checkpoint (and the files) unchanged. -/
theorem C6_nosave_rerun :
    ∀ (env : UnbEnv) (s1 : UnbState) (cp1 : Checkpoint) (s2 : UnbState)
      (cp2 : Checkpoint) (k : Nat),
      s1.checkpoint = some cp1 → cp1.iteration = k →
      s2.checkpoint = some cp2 →
      ∃ st1 out st2,
        run env defaultArguments s1 = Except.ok (st1, out) ∧
        run env (rerunArguments k) s2 = Except.ok (st2, out) ∧
        OutLine.header (k + 1) ∈ out ∧
        st2.checkpoint = s2.checkpoint ∧
        st2.files = s2.files := by
  intro env s1 cp1 s2 cp2 k hcp1 hit hcp2
  have h1 : ∃ st1, run env defaultArguments s1
      = Except.ok (st1, analyzeOut env (cfgOf defaultArguments) (k + 1)) := by
    simp only [run, defaultArguments, hcp1, hit, Bool.false_eq_true, if_false,
      reduceIte]
    exact ⟨_, rfl⟩
  obtain ⟨st1, h1⟩ := h1
  have h2 : run env (rerunArguments k) s2
      = Except.ok (({ checkpoint := s2.checkpoint, files := s2.files } : UnbState),
        analyzeOut env (cfgOf (rerunArguments k)) (k + 1)) := by
    simp only [run, rerunArguments, hcp2, Bool.false_eq_true, if_false,
      reduceIte]
  refine ⟨st1, analyzeOut env (cfgOf defaultArguments) (k + 1),
    { checkpoint := s2.checkpoint, files := s2.files }, h1, ?_, ?_, rfl, rfl⟩
  · exact h2
  · simp [analyzeOut]

/-- Witness for C6: the rerun theorem applied to the concrete
checkpointed state (k = 0). -/
theorem C6_nosave_rerun_witness :
    stateW.checkpoint = some cpW ∧ cpW.iteration = 0 ∧
    (∃ st1 out st2,
      run envW defaultArguments stateW = Except.ok (st1, out) ∧
      run envW (rerunArguments 0) stateW = Except.ok (st2, out) ∧
      OutLine.header 1 ∈ out ∧
      st2.checkpoint = stateW.checkpoint ∧
      st2.files = stateW.files) :=
  ⟨rfl, rfl, C6_nosave_rerun envW stateW cpW stateW cpW 0 rfl rfl rfl⟩

/-- Claim C8: every colvar file written by `run` defines a single
collective variable that is the sum of the contacts' centre-of-mass
group distances, each with componentCoeff 1.0 (contacts are never
biased individually), together with one harmonic bias whose
targetCenters equals its centers plus 4.0 Å (32.79 is shifted to
36.79), with forceConstant 20 and targetNumSteps 5000000. -/
theorem C8_colvar_sum_bias :
    (∀ (contacts : List Contact) (center : ℚ),
      (colvarOf contacts center).distances.length = contacts.length ∧
      (∀ d ∈ (colvarOf contacts center).distances, d.componentCoeff = 1) ∧
      (colvarOf contacts center).harmonic.colvars = (colvarOf contacts center).name ∧
      (colvarOf contacts center).harmonic.targetCenters
        = (colvarOf contacts center).harmonic.centers + 4 ∧
      (colvarOf contacts center).harmonic.forceConstant = 20 ∧
      (colvarOf contacts center).harmonic.targetNumSteps = 5000000) ∧
    (∀ contacts : List Contact,
      (colvarOf contacts (32.79 : ℚ)).harmonic.targetCenters = 36.79) ∧
    (∀ (env : UnbEnv) (s : UnbState) (cp : Checkpoint),
      s.checkpoint = some cp →
      ∃ st out, run env defaultArguments s = Except.ok (st, out) ∧
        st.files.getLast? = some
          ("traj_" ++ toString (cp.iteration + 1) ++ "/sum_"
              ++ toString (cp.iteration + 1) ++ ".col",
           FileData.col (colvarOf
             (usedPairs env (cfgOf defaultArguments) (cp.iteration + 1))
             (sumAtEnd env (cp.iteration + 1)
               (usedPairs env (cfgOf defaultArguments) (cp.iteration + 1)))))) := by
  refine ⟨?_, ?_, ?_⟩
  · intro contacts center
    refine ⟨by simp [colvarOf], ?_, rfl, rfl, rfl, rfl⟩
    intro d hd
    simp only [colvarOf, List.mem_map] at hd
    obtain ⟨c, _, rfl⟩ := hd
    rfl
  · intro contacts
    show (32.79 : ℚ) + 4 = 36.79
    norm_num
  · intro env s cp hcp
    simp only [run, defaultArguments, hcp, Bool.false_eq_true, if_false,
      reduceIte]
    refine ⟨_, _, rfl, ?_⟩
    simp [List.getLast?_append]

/-- Witness for C8: the colvar theorem's run part applied to the
concrete checkpointed state. -/
theorem C8_colvar_sum_bias_witness :
    stateW.checkpoint = some cpW ∧
    (∃ st out, run envW defaultArguments stateW = Except.ok (st, out) ∧
      st.files.getLast? = some
        ("traj_" ++ toString (cpW.iteration + 1) ++ "/sum_"
            ++ toString (cpW.iteration + 1) ++ ".col",
         FileData.col (colvarOf
           (usedPairs envW (cfgOf defaultArguments) (cpW.iteration + 1))
           (sumAtEnd envW (cpW.iteration + 1)
             (usedPairs envW (cfgOf defaultArguments) (cpW.iteration + 1)))))) :=
  ⟨rfl, C8_colvar_sum_bias.2.2 envW stateW cpW rfl⟩

/-- Claim C9: every trajectory-processing call prints its results to
standard output: for the processed trajectory it prints the header
TRAJECTORY n and the line "Pairs used in this cycle:", then one line
per biased pair carrying the pair's atom indices, residues and types,
preceded by one message per distance excluded in that cycle. -/
theorem C9_prints_cycle_output :
    ∀ (env : UnbEnv) (s : UnbState) (cp : Checkpoint),
      s.checkpoint = some cp →
      ∃ st, run env defaultArguments s = Except.ok (st,
        (cycleExclusions env (cfgOf defaultArguments) (cp.iteration + 1)).map
          (fun e => OutLine.exclusion e.1 e.2)
        ++ [OutLine.header (cp.iteration + 1), OutLine.blank, OutLine.pairsUsed]
        ++ (usedPairs env (cfgOf defaultArguments) (cp.iteration + 1)).map
          pairLineOf) ∧
      ((usedPairs env (cfgOf defaultArguments) (cp.iteration + 1)).map
        pairLineOf).length
        = (usedPairs env (cfgOf defaultArguments) (cp.iteration + 1)).length := by
  intro env s cp hcp
  simp only [run, defaultArguments, hcp, Bool.false_eq_true, if_false,
    reduceIte, analyzeOut]
  exact ⟨_, rfl, List.length_map _ _⟩

/-- Witness for C9: the printing theorem applied to the concrete
checkpointed state. -/
theorem C9_prints_cycle_output_witness :
    stateW.checkpoint = some cpW ∧
    (∃ st, run envW defaultArguments stateW = Except.ok (st,
        (cycleExclusions envW (cfgOf defaultArguments) (cpW.iteration + 1)).map
          (fun e => OutLine.exclusion e.1 e.2)
        ++ [OutLine.header (cpW.iteration + 1), OutLine.blank, OutLine.pairsUsed]
        ++ (usedPairs envW (cfgOf defaultArguments) (cpW.iteration + 1)).map
          pairLineOf) ∧
      ((usedPairs envW (cfgOf defaultArguments) (cpW.iteration + 1)).map
        pairLineOf).length
        = (usedPairs envW (cfgOf defaultArguments) (cpW.iteration + 1)).length) :=
  ⟨rfl, C9_prints_cycle_output envW stateW cpW rfl⟩

/-! ## Sequential execution of the notebooks

The claim about concurrency is settled syntactically: the code cells of
both notebooks are embedded below verbatim (apostrophes and braces are
written with character escapes), and a decidable scan shows that none
of them mentions any thread- or process-spawning construct.  All the
models above are pure sequential functions. -/

/-- Does `pat` occur as a prefix of `text`? -/
def startsWithList : List Char → List Char → Bool
  | [], _ => true
  | _ :: _, [] => false
  | p :: ps, t :: ts => p == t && startsWithList ps ts

/-- Does `pat` occur as a contiguous substring of `text`? -/
def containsTok : List Char → List Char → Bool
  | [], pat => pat.isEmpty
  | t :: ts, pat => startsWithList pat (t :: ts) || containsTok ts pat

/-- String-level substring test. -/
def strContains (s pat : String) : Bool := containsTok s.data pat.data

/-- Python constructs that spawn concurrent threads or processes, or
introduce asynchronous execution. -/
def spawnConstructs : List String :=
  ["threading", "Thread", "multiprocessing", "subprocess", "Popen",
   "fork", "os.system", "async", "await", "concurrent"]

/-- The code cells of the unbinding notebook, verbatim. -/
def unbindingCodeCells : List String :=
  ["import os\nfrom main import Arguments, run",
   "os.chdir(\"example\")",
   "with open(\"toppar/LIG_clusters.dat\", \"r\") as f:\n    for l in f: print(l.strip())",
   "args = Arguments(lig=\"BEN\", top=\"topology_clean.pdb\", processonly=True)\nrun(args)\n# processonly is necessary to supress writing inputs for the next iteration",
   "args = Arguments(processonly=True)\nfor _ in range(3):\n    run(args)",
   "with open(\"distances_tracked.csv\", \"r\") as f:\n    for l in f: print(l.strip())",
   "run(args)   # trajectory 5 is coming up",
   "for _ in range(2): run(args)",
   "run(Arguments(report=True))",
   "for _ in range(4): run(args)",
   "with open(\"distances_tracked.csv\", \"r\") as f:\n    for l in f: print(l.strip())",
   "run(Arguments())",
   "with open(\"traj_12/sum_12.col\", \"r\") as f:\n    for l in f: print(l.strip())",
   "args = Arguments(processonly=True, trajectory=7, nosave=True)\nrun(args)",
   "# with cumulative, you will always need the initial setup parameters as well, as it does not use the checkpoint\nargs = Arguments(cutoff=3.3, maxdist=6, lig=\"BEN\", top=\"topology_clean.pdb\", processonly=True, trajectory=5, nosave=True, cumulative=True)\nrun(args)",
   "args = Arguments(\n    trajectory=5,\n    cumulative=True,\n    cutoff=3,\n    maxdist=5,\n    processonly=True,\n    nosave=True,\n    lig=\"BEN\",\n    top=\"topology_clean.pdb\",\n)\nrun(args)",
   "with open(\"distances_tracked.csv\", \"r\") as f:\n    for l in f: print(l.strip())"]

/-- The code cells of the string-method notebook, verbatim. -/
def stringCodeCells : List String :=
  ["import sys\nimport numpy as np\nimport matplotlib.pyplot as plt\nfrom matplotlib.pyplot import cm\n%matplotlib inline\nsys.path.append(\"..\")\nfrom aux import *\nfrom src.wham import WHAM",
   "\"\"\" Parameters \"\"\"\nn_windows = 30  # Number of windows\nn_steps = 1000  # Number of steps to run for\nT = 300\n\nrestraint = np.empty((2, n_windows))    # distances in A\nrestraint[0] = np.linspace(-3, 3, n_windows)\nrestraint[1] = np.linspace(-1, 2, n_windows)\nforce = np.ones((2, n_windows)) * 2     # in kcal/(mol*A^2)",
   "plt.plot(restraint[0], restraint[1], \"s-\")\nplt.xlabel(\"CV1 (Å)\")\nplt.ylabel(\"CV2 (Å)\")\nplt.show()",
   "# set the starting positions\nlast_position = np.copy(restraint)\nall_data = []\nall_restraint = []\n# first iteration\ndata, last_position = generate_data(n_windows, n_steps, T, force, last_position, restraint)\nall_data.append(data)\nall_restraint.append(restraint)",
   "average_position = np.mean(data, axis=1)\nplt.plot(restraint[0], restraint[1], \"s-\", label=\"Restraint position\")\nplt.plot(average_position[:, 0], average_position[:, 1], \x27o\x27, label=\"Average position\")\nwindow = np.random.randint(0, 29)\nplt.plot(data[window, :, 0], data[window, :, 1], label=\"Window \x7b:d\x7d trajectory\".format(window + 1),\n        linewidth=0.2)\nplt.legend()\nplt.show()",
   "restraint = optimize_string(average_position)\n\nplt.plot(all_restraint[0][0], all_restraint[0][1], \"s-\", label=\"String 1\")\nplt.plot(average_position[:, 0], average_position[:, 1], \x27o\x27, label=\"Average position\")\nplt.plot(restraint[0], restraint[1], \"s-\", label=\"String 2\")\nplt.legend()\nplt.show()",
   "niter = 15\nfor itr in range(niter):\n    # Generate stochastic data\n    data, last_position = generate_data(n_windows, n_steps, T, force, last_position, restraint)\n    all_data.append(data)\n    all_restraint.append(restraint)\n    average_position = np.mean(data, axis=1)\n    # Optimize the string for the next iteration\n    restraint = optimize_string(average_position)",
   "f, ax = plt.subplots()\ncolor = cm.rainbow(np.linspace(0, 1, len(all_restraint)))\nfor i in range(len(all_restraint)):\n    ax.plot(all_restraint[i][0], all_restraint[i][1], \"-s\", markersize=3, linewidth=1, color=color[i])\nplt.show()",
   "niter = 15\nfor itr in range(niter):\n    # Generate stochastic data\n    data, last_position = generate_data(n_windows, n_steps, T, force, last_position, restraint)\n    all_data.append(data)\n    all_restraint.append(restraint)\n    average_position = np.mean(data, axis=1)\n    # Optimize the string for the next iteration\n    restraint = optimize_string(average_position)",
   "stride = 3      # may stride the data for saving, to save memory\nall_data = np.concatenate(all_data, axis=0)[:, ::stride, :]\nall_restraint = np.transpose(np.concatenate(all_restraint, axis=1))",
   "skip = 1\nw = WHAM()\nw.setup(all_data[int(skip * n_windows):], 300,\n        np.transpose(np.concatenate([force for _ in range(int(len(all_data) / n_windows) - skip)], axis=1)),\n        all_restraint[int(skip * n_windows):])\nw.converge(0.01)\n",
   "w.project_2d([[0, 1], [1, 0]], 30)",
   "%matplotlib qt\n# prepare the last string\nsx = all_restraint[-n_windows:, 0]\nsy = all_restraint[-n_windows:, 1]\nsz = Epot(sx, sy)\n# we use the internal binning of WHAM\n[x, y] = np.meshgrid(w.colvar1_bins, w.colvar2_bins)\nfig = plt.figure(figsize=(20, 10))\n# start with the true potential\nax_true = fig.add_subplot(121, projection=\x273d\x27)\nsurf_true = ax_true.plot_surface(x, y, Epot(x, y), cmap=cm.viridis, vmin=0, vmax=8, zorder=1)\nax_true.plot(sx, sy, sz, \"s-\", markersize=4, linewidth=2, color=\"lime\", zorder=3)\nax_true.set_zlim(0, 8)\nax_true.view_init(azim=0, elev=90)\n# now the reconstruction\nax = fig.add_subplot(122, projection=\x273d\x27)\nsurf = ax.plot_surface(x, y, w.profile2d, cmap=cm.viridis, vmin=0, vmax=8, zorder=1)\nax.plot(sx, sy, sz, \"s-\", markersize=4, linewidth=2, color=\"lime\", zorder=3)\nax.set_zlim(0, 8)\nax.view_init(azim=0, elev=90)\nplt.tight_layout()\nplt.show()"]

/-- All code cells of both notebooks. -/
def notebookCodeCells : List String := unbindingCodeCells ++ stringCodeCells

/-- Whether any notebook code cell mentions a thread- or
process-spawning construct. -/
def hasSpawnConstruct : Bool :=
  notebookCodeCells.any (fun cell => spawnConstructs.any (fun tok => strContains cell tok))

set_option maxRecDepth 100000 in
/-- Claim C10: the workflow is sequential — no code cell of either
notebook mentions a thread- or process-spawning or asynchronous
construct, and the string loop (like all the modelled operations, which
are pure functions) composes its steps one after another in program
order. -/
theorem C10_sequential_workflow :
    hasSpawnConstruct = false ∧
    (∀ gen i r, stringLoop gen (i + 1) r = stringLoop gen i (stringIter gen r)) :=
  ⟨by decide, fun gen i r => rfl⟩
